import Mathlib

/-!
Shallow embedding of the TinyLogger single-header logging library
(src/tinylogger.hpp).  Machine integers are modelled as Nat, wall-clock
times as Nat milliseconds since an arbitrary origin, and the three C++
output streams as an enumerated stream id.  The process termination of
the CRITICAL path (exit(EXIT_FAILURE)) is an Option Nat exit status in
every operation result.  The 26-byte ctime buffer whose byte 24 is
overwritten with the null terminator is modelled as taking the first 24
characters of the ctime string, which is supplied as an input alongside
the current time.  std::to_string applied to the double k/1000.0
(printf %f, six fractional digits) is modelled exactly for nonnegative
integral millisecond counts k.  The double arithmetic of the progress
bar is modelled over the rationals; the size_t cast of a nonnegative
double is the floor.
-/

namespace TinyLogger

/-- LogLevel enumeration of tinylogger.hpp (lines 79-88). -/
inductive LogLevel where
  | OFF
  | CRITICAL
  | LERROR
  | WARNING
  | INFO
  | VERBOSE
  | DEBUG
  | TRACE
deriving DecidableEq, Fintype

/-- Underlying integer value of each enumerator (OFF = 0 up to TRACE = 7);
the C++ comparison logLevel <= logLevel_ compares these values. -/
def LogLevel.rank : LogLevel → Nat
  | .OFF => 0
  | .CRITICAL => 1
  | .LERROR => 2
  | .WARNING => 3
  | .INFO => 4
  | .VERBOSE => 5
  | .DEBUG => 6
  | .TRACE => 7

/-- The three C++ output streams used by the logger. -/
inductive StreamId where
  | cout
  | clog
  | cerr
deriving DecidableEq

/-- Mutable state of the Logger struct: logLevel_, lastLogTime_ (ms),
the progress-bar counters currentIteration_ and numberIterations_, and
the flagTimes_ map (association list from flag name to start time). -/
structure LoggerState where
  logLevel : LogLevel
  lastLogTime : Nat
  currentIteration : Nat
  numberIterations : Nat
  flagTimes : List (String × Nat)
deriving DecidableEq

/-- Result of one logger operation: the lines written (stream, full
line including the newline appended by std::endl), the state after the
call, and some code when the operation called exit(code). -/
structure EmitResult where
  out : List (StreamId × String)
  state : LoggerState
  exited : Option Nat
deriving DecidableEq

/-- Truncation of the ctime output to 24 characters, modelling
currentTimeChar_[24] = the null terminator (lines 110-112, 297-299). -/
def truncate24 (s : String) : String := String.mk (s.data.take 24)

/-- Three-digit zero-padded decimal rendering of n < 1000. -/
def natPad3 (n : Nat) : String :=
  String.mk [Nat.digitChar (n / 100 % 10), Nat.digitChar (n / 10 % 10), Nat.digitChar (n % 10)]

/-- Model of std::to_string(ms / 1000.0): printf %f prints six
fractional digits, so an integral millisecond count ms renders as
"<ms/1000>.<ms%1000 zero-padded to 3>000". -/
def msToSecondsString (ms : Nat) : String :=
  toString (ms / 1000) ++ "." ++ natPad3 (ms % 1000) ++ "000"

/-- Logger::formatMessage (lines 288-314): elapsed= now - lastLogTime_,
line = 24-char timestamp ++ " +" ++ to_string(elapsed/1000.0) ++
three backspaces ++ " s " ++ the concatenation of the streamed
arguments, and lastLogTime_ := now.  Returns the line and the updated
state. -/
def formatMessage (st : LoggerState) (ctimeNow : String) (now : Nat)
    (parts : List String) : String × LoggerState :=
  let elapsedMs := now - st.lastLogTime
  let elapsedTimeString := " +" ++ msToSecondsString elapsedMs ++ "\x08\x08\x08 s "
  (truncate24 ctimeNow ++ elapsedTimeString ++ String.join parts,
   { st with lastLogTime := now })

/-- Logger::logTRACE (lines 156-161): writes the tagged line to clog. -/
def logTRACE (st : LoggerState) (ctimeNow : String) (now : Nat)
    (parts : List String) : EmitResult :=
  ⟨[(.clog, "[TRACE]    " ++ (formatMessage st ctimeNow now parts).1 ++ "\n")],
   (formatMessage st ctimeNow now parts).2, none⟩

/-- Logger::logDEBUG (lines 163-168): writes the tagged line to clog. -/
def logDEBUG (st : LoggerState) (ctimeNow : String) (now : Nat)
    (parts : List String) : EmitResult :=
  ⟨[(.clog, "[DEBUG]    " ++ (formatMessage st ctimeNow now parts).1 ++ "\n")],
   (formatMessage st ctimeNow now parts).2, none⟩

/-- Logger::logVERBOSE (lines 170-175): writes the tagged line to clog. -/
def logVERBOSE (st : LoggerState) (ctimeNow : String) (now : Nat)
    (parts : List String) : EmitResult :=
  ⟨[(.clog, "[VERBOSE]  " ++ (formatMessage st ctimeNow now parts).1 ++ "\n")],
   (formatMessage st ctimeNow now parts).2, none⟩

/-- Logger::logINFO (lines 177-182): writes the tagged line to cout. -/
def logINFO (st : LoggerState) (ctimeNow : String) (now : Nat)
    (parts : List String) : EmitResult :=
  ⟨[(.cout, "[INFO]     " ++ (formatMessage st ctimeNow now parts).1 ++ "\n")],
   (formatMessage st ctimeNow now parts).2, none⟩

/-- Logger::logWARNING (lines 184-189): writes the tagged line to clog. -/
def logWARNING (st : LoggerState) (ctimeNow : String) (now : Nat)
    (parts : List String) : EmitResult :=
  ⟨[(.clog, "[WARNING]  " ++ (formatMessage st ctimeNow now parts).1 ++ "\n")],
   (formatMessage st ctimeNow now parts).2, none⟩

/-- Logger::logERROR (lines 191-196): writes the tagged line to cerr. -/
def logERROR (st : LoggerState) (ctimeNow : String) (now : Nat)
    (parts : List String) : EmitResult :=
  ⟨[(.cerr, "[ERROR]    " ++ (formatMessage st ctimeNow now parts).1 ++ "\n")],
   (formatMessage st ctimeNow now parts).2, none⟩

/-- Logger::logCRITICAL (lines 198-204): writes the tagged line to cerr
and then calls exit(EXIT_FAILURE), modelled as exit status 1. -/
def logCRITICAL (st : LoggerState) (ctimeNow : String) (now : Nat)
    (parts : List String) : EmitResult :=
  ⟨[(.cerr, "[CRITICAL] " ++ (formatMessage st ctimeNow now parts).1 ++ "\n")],
   (formatMessage st ctimeNow now parts).2, some 1⟩

/-- Logger::log (lines 132-154): if logLevel <= logLevel_ dispatch on
logLevel to the per-severity function; the switch has no case for OFF
(default: break), and a gated-out call does nothing. -/
def log (st : LoggerState) (logLevel : LogLevel) (ctimeNow : String) (now : Nat)
    (parts : List String) : EmitResult :=
  if logLevel.rank ≤ st.logLevel.rank then
    match logLevel with
    | .TRACE => logTRACE st ctimeNow now parts
    | .DEBUG => logDEBUG st ctimeNow now parts
    | .VERBOSE => logVERBOSE st ctimeNow now parts
    | .INFO => logINFO st ctimeNow now parts
    | .WARNING => logWARNING st ctimeNow now parts
    | .LERROR => logERROR st ctimeNow now parts
    | .CRITICAL => logCRITICAL st ctimeNow now parts
    | .OFF => ⟨[], st, none⟩
  else ⟨[], st, none⟩

/-- C10: log with severity OFF passes the rank gate but falls through
the switch default: nothing is written, the state is unchanged, and the
call returns normally. -/
theorem log_off_is_noop (st : LoggerState) (ctimeNow : String) (now : Nat)
    (parts : List String) : log st .OFF ctimeNow now parts = ⟨[], st, none⟩ := by
  unfold log
  have h : LogLevel.rank .OFF ≤ st.logLevel.rank := Nat.zero_le _
  rw [if_pos h]

/-- C1 counterexample: with threshold TRACE, severity OFF satisfies
rank(OFF) <= rank(TRACE) yet log produces no output, refuting the
claimed equivalence for every severity. -/
theorem log_iff_counterexample :
    LogLevel.rank .OFF ≤ LogLevel.rank .TRACE ∧
      (log (LoggerState.mk .TRACE 0 0 1 []) .OFF "Thu Jan  1 00:00:00 1970" 5
        ["m"]).out = [] := by
  constructor
  · decide
  · decide

/-- C1 amended: for every severity other than OFF, log produces output
iff rank(severity) <= rank(threshold), and a suppressed call does no
work: nothing is written, the state is unchanged and the call returns
normally.  For OFF the gate passes yet nothing is emitted (see C10). -/
theorem log_output_iff_rank_le (st : LoggerState) (lvl : LogLevel)
    (ctimeNow : String) (now : Nat) (parts : List String) (h : lvl ≠ .OFF) :
    ((log st lvl ctimeNow now parts).out ≠ [] ↔ lvl.rank ≤ st.logLevel.rank) ∧
      (st.logLevel.rank < lvl.rank →
        log st lvl ctimeNow now parts = ⟨[], st, none⟩) := by
  by_cases hle : lvl.rank ≤ st.logLevel.rank
  · refine ⟨⟨fun _ => hle, fun _ => ?_⟩, fun hlt => absurd hle (Nat.not_le.mpr hlt)⟩
    cases lvl
    · exact absurd rfl h
    all_goals simp [log, hle, logCRITICAL, logERROR, logWARNING, logINFO,
      logVERBOSE, logDEBUG, logTRACE]
  · have heq : log st lvl ctimeNow now parts = ⟨[], st, none⟩ := by
      unfold log
      rw [if_neg hle]
    refine ⟨?_, fun _ => heq⟩
    rw [heq]
    simp [hle]

/-- Witness instantiating log_output_iff_rank_le at severity INFO and
threshold TRACE. -/
theorem log_output_iff_rank_le_witness :
    LogLevel.INFO ≠ LogLevel.OFF ∧
      (((log (LoggerState.mk .TRACE 0 0 1 []) .INFO "Thu Jan  1 00:00:00 1970" 5
            ["m"]).out ≠ [] ↔
          LogLevel.rank .INFO ≤ LogLevel.rank .TRACE) ∧
        (LogLevel.rank .TRACE < LogLevel.rank .INFO →
          log (LoggerState.mk .TRACE 0 0 1 []) .INFO "Thu Jan  1 00:00:00 1970" 5
              ["m"] = ⟨[], LoggerState.mk .TRACE 0 0 1 [], none⟩)) :=
  ⟨by decide, log_output_iff_rank_le _ _ _ _ _ (by decide)⟩

/-- Dispatch table pairing each severity with the per-severity
convenience function of the source (lines 156-204).  OFF has no
convenience function in the source; it is mapped to the no-op here and
excluded by hypothesis in every theorem that uses this table. -/
def perSeverityCall : LogLevel → LoggerState → String → Nat → List String → EmitResult
  | .TRACE => logTRACE
  | .DEBUG => logDEBUG
  | .VERBOSE => logVERBOSE
  | .INFO => logINFO
  | .WARNING => logWARNING
  | .LERROR => logERROR
  | .CRITICAL => logCRITICAL
  | .OFF => fun st _ _ _ => ⟨[], st, none⟩

/-- C3 counterexample: with threshold OFF, logTRACE writes its line
unconditionally while log(TRACE, ...) is suppressed by the gate, so the
convenience function is not equivalent to log at the fixed severity. -/
theorem convenience_equiv_counterexample :
    (logTRACE (LoggerState.mk .OFF 0 0 1 []) "Thu Jan  1 00:00:00 1970" 5
        ["m"]).out ≠
      (log (LoggerState.mk .OFF 0 0 1 []) .TRACE "Thu Jan  1 00:00:00 1970" 5
        ["m"]).out := by
  decide

/-- C3 amended: each convenience function agrees with log at its fixed
severity exactly when that severity passes the threshold gate; when the
gate suppresses the message, log does nothing while the convenience
function, which never consults the threshold, still writes its line. -/
theorem convenience_equiv_amended (lvl : LogLevel) (st : LoggerState)
    (ctimeNow : String) (now : Nat) (parts : List String) (h : lvl ≠ .OFF) :
    (lvl.rank ≤ st.logLevel.rank →
        perSeverityCall lvl st ctimeNow now parts = log st lvl ctimeNow now parts) ∧
      (st.logLevel.rank < lvl.rank →
        (perSeverityCall lvl st ctimeNow now parts).out ≠ [] ∧
          log st lvl ctimeNow now parts = ⟨[], st, none⟩) := by
  constructor
  · intro hle
    cases lvl
    · exact absurd rfl h
    all_goals simp [log, hle, perSeverityCall]
  · intro hlt
    have hgt : ¬ lvl.rank ≤ st.logLevel.rank := Nat.not_le.mpr hlt
    constructor
    · cases lvl
      · exact absurd rfl h
      all_goals simp [perSeverityCall, logCRITICAL, logERROR, logWARNING,
        logINFO, logVERBOSE, logDEBUG, logTRACE]
    · unfold log
      rw [if_neg hgt]

/-- Witness instantiating convenience_equiv_amended at severity INFO and
threshold TRACE. -/
theorem convenience_equiv_amended_witness :
    LogLevel.INFO ≠ LogLevel.OFF ∧
      ((LogLevel.rank .INFO ≤ LogLevel.rank .TRACE →
          perSeverityCall .INFO (LoggerState.mk .TRACE 0 0 1 [])
              "Thu Jan  1 00:00:00 1970" 5 ["m"] =
            log (LoggerState.mk .TRACE 0 0 1 []) .INFO
              "Thu Jan  1 00:00:00 1970" 5 ["m"]) ∧
        (LogLevel.rank .TRACE < LogLevel.rank .INFO →
          (perSeverityCall .INFO (LoggerState.mk .TRACE 0 0 1 [])
              "Thu Jan  1 00:00:00 1970" 5 ["m"]).out ≠ [] ∧
            log (LoggerState.mk .TRACE 0 0 1 []) .INFO
                "Thu Jan  1 00:00:00 1970" 5 ["m"] =
              ⟨[], LoggerState.mk .TRACE 0 0 1 [], none⟩)) :=
  ⟨by decide, convenience_equiv_amended .INFO (LoggerState.mk .TRACE 0 0 1 [])
    "Thu Jan  1 00:00:00 1970" 5 ["m"] (by decide)⟩

/-- C4 counterexample: with threshold OFF the severity gate suppresses
even CRITICAL, so log(CRITICAL, ...) writes nothing, exits nothing and
returns normally to the caller. -/
theorem critical_terminates_counterexample :
    log (LoggerState.mk .OFF 0 0 1 []) .CRITICAL "Thu Jan  1 00:00:00 1970" 5
        ["m"] = ⟨[], LoggerState.mk .OFF 0 0 1 [], none⟩ := by
  decide

/-- C4 amended: whenever CRITICAL passes the gate (threshold rank at
least 1, i.e. threshold not OFF), log(CRITICAL, ...) writes the
formatted [CRITICAL] line to cerr and exits with failure status 1 and
the line already written; with threshold OFF the call is gated out and
returns normally. -/
theorem critical_terminates_amended (st : LoggerState) (ctimeNow : String)
    (now : Nat) (parts : List String) (h : 1 ≤ st.logLevel.rank) :
    log st .CRITICAL ctimeNow now parts =
      ⟨[(.cerr, "[CRITICAL] " ++ (formatMessage st ctimeNow now parts).1 ++ "\n")],
       (formatMessage st ctimeNow now parts).2, some 1⟩ := by
  have h1 : LogLevel.rank .CRITICAL ≤ st.logLevel.rank := h
  unfold log
  rw [if_pos h1]
  rfl

/-- Witness instantiating critical_terminates_amended at threshold
TRACE. -/
theorem critical_terminates_amended_witness :
    1 ≤ LogLevel.rank .TRACE ∧
      log (LoggerState.mk .TRACE 0 0 1 []) .CRITICAL "Thu Jan  1 00:00:01 1970"
          1234 ["boom"] =
        ⟨[(.cerr, "[CRITICAL] " ++
            (formatMessage (LoggerState.mk .TRACE 0 0 1 [])
              "Thu Jan  1 00:00:01 1970" 1234 ["boom"]).1 ++ "\n")],
         (formatMessage (LoggerState.mk .TRACE 0 0 1 [])
           "Thu Jan  1 00:00:01 1970" 1234 ["boom"]).2, some 1⟩ :=
  ⟨by decide, critical_terminates_amended _ _ _ _ (by decide)⟩

/-- Assignment flagTimes_[flagName] = now of std::unordered_map (line
263): replace the value of an existing key, append a new entry
otherwise. -/
def setFlagTime : List (String × Nat) → String → Nat → List (String × Nat)
  | [], k, v => [(k, v)]
  | (k0, v0) :: rest, k, v =>
    if k0 = k then (k, v) :: rest else (k0, v0) :: setFlagTime rest k v

/-- Logger::addFlag (lines 254-264): if the flag already exists emit a
warning, then store now under the name (overwriting any entry). -/
def addFlag (st : LoggerState) (flagName : String) (ctimeNow : String)
    (now : Nat) : EmitResult :=
  if (st.flagTimes.lookup flagName).isSome then
    let r := logWARNING st ctimeNow now
      ["Flag \x27", flagName, "\x27 already exists and will be overwritten."]
    ⟨r.out, { r.state with flagTimes := setFlagTime r.state.flagTimes flagName now },
     r.exited⟩
  else
    ⟨[], { st with flagTimes := setFlagTime st.flagTimes flagName now }, none⟩

/-- Logger::releaseFlag (lines 266-285): a missing name is reported
with logERROR; a present name is reported with logINFO together with
the elapsed seconds string.  The source never erases the entry. -/
def releaseFlag (st : LoggerState) (flagName : String) (ctimeNow : String)
    (now : Nat) : EmitResult :=
  match st.flagTimes.lookup flagName with
  | none =>
    logERROR st ctimeNow now
      ["Flag \x27", flagName, "\x27 could not be found in memory."]
  | some startTime =>
    logINFO st ctimeNow now
      ["Flag \x27", flagName, "\x27 released after ",
       msToSecondsString (now - startTime) ++ "\x08\x08\x08 seconds."]

/-- C5: evaluation at the failing input.  After addFlag "x" and a first
releaseFlag "x", the entry is still in the flags table because
releaseFlag never erases it, so a second releaseFlag "x" with no
intervening addFlag reports an elapsed time on cout (the info path)
instead of the missing-flag error on cerr. -/
theorem releaseFlag_does_not_erase :
    ((releaseFlag (addFlag (LoggerState.mk .TRACE 0 0 1 []) "x"
        "Thu Jan  1 00:00:01 1970" 1000).state "x" "Thu Jan  1 00:00:02 1970"
        2000).state.flagTimes.lookup "x" = some 1000) ∧
      ((releaseFlag (releaseFlag (addFlag (LoggerState.mk .TRACE 0 0 1 []) "x"
          "Thu Jan  1 00:00:01 1970" 1000).state "x" "Thu Jan  1 00:00:02 1970"
          2000).state "x" "Thu Jan  1 00:00:03 1970" 3000).out.map Prod.fst =
        [StreamId.cout]) := by
  decide

/-- C8 counterexample: at elapsed time 1234 ms the emitted bytes are
" +1.234000" followed by the three backspaces (std::to_string of a
double prints six fractional digits), not the claimed " +1.234"
directly followed by the three backspaces. -/
theorem formatMessage_bytes_counterexample :
    (formatMessage (LoggerState.mk .TRACE 0 0 1 []) "Thu Jan  1 00:00:01 1970"
        1234 ["hello"]).1 =
      "Thu Jan  1 00:00:01 1970 +1.234000\x08\x08\x08 s hello" ∧
      "Thu Jan  1 00:00:01 1970 +1.234000\x08\x08\x08 s hello" ≠
        "Thu Jan  1 00:00:01 1970 +1.234\x08\x08\x08 s hello" := by
  decide

/-- C8 amended: every formatted line is the 24-character truncation of
the calendar timestamp, then " +", the elapsed whole seconds, a dot,
the elapsed milliseconds zero-padded to three digits, three further
zero digits (std::to_string renders six fractional digits, the last
three of which are always zero for an integral millisecond count), the
three-backspace sequence, " s ", and the concatenation of the parts in
order with no inserted separators. -/
theorem formatMessage_shape (st : LoggerState) (ctimeNow : String) (now : Nat)
    (parts : List String) (h : 24 ≤ ctimeNow.length) :
    (formatMessage st ctimeNow now parts).1 =
      truncate24 ctimeNow ++ " +" ++ toString ((now - st.lastLogTime) / 1000) ++
        "." ++ natPad3 ((now - st.lastLogTime) % 1000) ++ "000" ++
        "\x08\x08\x08 s " ++ String.join parts ∧
      (truncate24 ctimeNow).length = 24 ∧
      (natPad3 ((now - st.lastLogTime) % 1000)).length = 3 := by
  refine ⟨?_, ?_, rfl⟩
  · simp only [formatMessage, msToSecondsString, String.append_assoc]
  · show (ctimeNow.data.take 24).length = 24
    rw [List.length_take]
    exact Nat.min_eq_left h

/-- Witness instantiating formatMessage_shape at a concrete 24-character
timestamp and a 1234 ms elapsed time. -/
theorem formatMessage_shape_witness :
    24 ≤ ("Thu Jan  1 00:00:01 1970" : String).length ∧
      ((formatMessage (LoggerState.mk .TRACE 0 0 1 [])
          "Thu Jan  1 00:00:01 1970" 1234 ["he", "llo"]).1 =
        truncate24 "Thu Jan  1 00:00:01 1970" ++ " +" ++
          toString ((1234 - (LoggerState.mk (LogLevel.TRACE) 0 0 1 []).lastLogTime) / 1000) ++
          "." ++ natPad3 ((1234 - (LoggerState.mk (LogLevel.TRACE) 0 0 1 []).lastLogTime) % 1000) ++
          "000" ++ "\x08\x08\x08 s " ++ String.join ["he", "llo"] ∧
        (truncate24 "Thu Jan  1 00:00:01 1970").length = 24 ∧
        (natPad3 ((1234 - (LoggerState.mk (LogLevel.TRACE) 0 0 1 []).lastLogTime) % 1000)).length = 3) :=
  ⟨by decide, formatMessage_shape (LoggerState.mk .TRACE 0 0 1 [])
    "Thu Jan  1 00:00:01 1970" 1234 ["he", "llo"] (by decide)⟩

/-- Length of a string built from an explicit character list. -/
theorem stringLengthMk (l : List Char) : (String.mk l).length = l.length := rfl

/-- Progress bar width constant (line 227). -/
def progressBarWidth : Nat := 50

/-- Percentage formula of lines 229-230: (current / (total - 1)) * 100,
over the rationals.  The doubles of the source hold exact small
rational values here and every comparison made by the claims is far
from a rounding boundary, so exact rational arithmetic is faithful. -/
def progressPercentage (cur tot : Nat) : ℚ :=
  ((cur : ℚ) / ((tot : ℚ) - 1)) * 100

/-- Early-return condition of displayProgressBar (lines 233-237): skip
the redraw when the percentage advanced by less than one point, the
total is unchanged and this is not the final iteration. -/
def progressSkip (st : LoggerState) (cur tot : Nat) : Bool :=
  decide (progressPercentage cur tot -
      progressPercentage st.currentIteration st.numberIterations < 1) &&
    decide (tot = st.numberIterations) && !(decide (cur = tot - 1))

/-- filledWidth (line 243): the size_t cast of 50 * (newPercentage /
100), which is the floor for the nonnegative values involved. -/
def filledWidth (cur tot : Nat) : Nat :=
  (⌊(progressBarWidth : ℚ) * (progressPercentage cur tot / 100)⌋).toNat

/-- Interior of the rendered bar (lines 244-247): filledWidth fill
characters followed by progressBarWidth - filledWidth spaces. -/
def barInterior (cur tot : Nat) : String :=
  String.mk (List.replicate (filledWidth cur tot) '=') ++
    String.mk (List.replicate (progressBarWidth - filledWidth cur tot) ' ')

/-- Progress-bar string of lines 244-247, up to the closing bracket. -/
def renderedProgressBar (cur tot : Nat) : String :=
  "           [" ++ barInterior cur tot ++ "] "

/-- Logger::displayProgressBar (lines 222-252): return early when
progressSkip holds, leaving all state unchanged; otherwise store the
two counters and write the bar, the truncated percentage and a
carriage return to cout. -/
def displayProgressBar (st : LoggerState)
    (currentIteration numberIterations : Nat) : EmitResult :=
  if progressSkip st currentIteration numberIterations then ⟨[], st, none⟩
  else
    ⟨[(.cout, renderedProgressBar currentIteration numberIterations ++
        toString ⌊progressPercentage currentIteration numberIterations⌋ ++ "%\x0d")],
     { st with currentIteration := currentIteration,
               numberIterations := numberIterations }, none⟩

/-- C6 counterexample: with stored counters (0, 201), the call
displayProgressBar(1, 201) advances the percentage by only half a
point, so the early return fires before the stores and the stored
current iteration remains 0 instead of becoming the argument 1. -/
theorem progress_counters_counterexample :
    (displayProgressBar (LoggerState.mk .TRACE 0 0 201 [])
        1 201).state.currentIteration ≠ 1 := by
  have hql : progressPercentage 1 201 - progressPercentage 0 201 < 1 := by
    norm_num [progressPercentage]
  have hskip : progressSkip (LoggerState.mk .TRACE 0 0 201 []) 1 201 = true := by
    simp [progressSkip, hql]
  simp [displayProgressBar, hskip]

/-- C6 amended: a call to displayProgressBar stores the two arguments
into the progress counters exactly when the redraw is not skipped; a
skipped call leaves both counters (and the rest of the state)
unchanged. -/
theorem progress_counters_amended (st : LoggerState) (cur tot : Nat)
    (h1 : 2 ≤ tot) (h2 : 2 ≤ st.numberIterations) :
    (displayProgressBar st cur tot).state.currentIteration =
        (if progressSkip st cur tot then st.currentIteration else cur) ∧
      (displayProgressBar st cur tot).state.numberIterations =
        (if progressSkip st cur tot then st.numberIterations else tot) := by
  cases h : progressSkip st cur tot <;> simp [displayProgressBar, h]

/-- Witness instantiating progress_counters_amended at stored counters
(0, 2) and arguments (1, 2). -/
theorem progress_counters_amended_witness :
    2 ≤ 2 ∧ 2 ≤ (LoggerState.mk (LogLevel.TRACE) 0 0 2 []).numberIterations ∧
      ((displayProgressBar (LoggerState.mk .TRACE 0 0 2 [])
            1 2).state.currentIteration =
          (if progressSkip (LoggerState.mk .TRACE 0 0 2 []) 1 2 then
            (LoggerState.mk (LogLevel.TRACE) 0 0 2 []).currentIteration else 1) ∧
        (displayProgressBar (LoggerState.mk .TRACE 0 0 2 [])
            1 2).state.numberIterations =
          (if progressSkip (LoggerState.mk .TRACE 0 0 2 []) 1 2 then
            (LoggerState.mk (LogLevel.TRACE) 0 0 2 []).numberIterations else 2)) :=
  ⟨by decide, by decide,
   progress_counters_amended (LoggerState.mk .TRACE 0 0 2 []) 1 2
     (by decide) (by decide)⟩

/-- C7: for total at least 2 and current at most total - 1, the filled
width is at most the bar width of 50, the unsigned subtraction used for
the padding cannot underflow, and the rendered interior of the bar is
exactly 50 characters. -/
theorem filledWidth_le_width (cur tot : Nat) (h1 : 2 ≤ tot)
    (h2 : cur ≤ tot - 1) :
    filledWidth cur tot ≤ progressBarWidth ∧
      filledWidth cur tot + (progressBarWidth - filledWidth cur tot) =
        progressBarWidth ∧
      (barInterior cur tot).length = progressBarWidth := by
  have htot : (2 : ℚ) ≤ (tot : ℚ) := by exact_mod_cast h1
  have hc : (cur : ℚ) ≤ (tot : ℚ) - 1 := by
    have h2q : (cur : ℚ) ≤ ((tot - 1 : Nat) : ℚ) := by exact_mod_cast h2
    rwa [Nat.cast_sub (by omega), Nat.cast_one] at h2q
  have hq1 : (cur : ℚ) / ((tot : ℚ) - 1) ≤ 1 := by
    rw [div_le_one (by linarith)]
    exact hc
  have hq : (progressBarWidth : ℚ) * (progressPercentage cur tot / 100) ≤ 50 := by
    rw [progressPercentage, progressBarWidth,
      mul_div_cancel_right₀ _ (by norm_num : (100 : ℚ) ≠ 0)]
    have := mul_le_mul_of_nonneg_left hq1 (by norm_num : (0 : ℚ) ≤ 50)
    simpa using this
  have hfloor : ⌊(progressBarWidth : ℚ) * (progressPercentage cur tot / 100)⌋ ≤ 50 := by
    calc ⌊(progressBarWidth : ℚ) * (progressPercentage cur tot / 100)⌋ ≤ ⌊(50 : ℚ)⌋ :=
          Int.floor_le_floor hq
      _ = 50 := by norm_num
  have hfw : filledWidth cur tot ≤ progressBarWidth := by
    rw [filledWidth]
    exact Int.toNat_le.mpr (by exact_mod_cast hfloor)
  refine ⟨hfw, Nat.add_sub_cancel' hfw, ?_⟩
  rw [barInterior, String.length_append, stringLengthMk, stringLengthMk,
    List.length_replicate, List.length_replicate]
  exact Nat.add_sub_cancel' hfw

/-- Witness instantiating filledWidth_le_width at current 1, total 3. -/
theorem filledWidth_le_width_witness :
    2 ≤ 3 ∧ 1 ≤ 3 - 1 ∧
      (filledWidth 1 3 ≤ progressBarWidth ∧
        filledWidth 1 3 + (progressBarWidth - filledWidth 1 3) = progressBarWidth ∧
        (barInterior 1 3).length = progressBarWidth) :=
  ⟨by decide, by decide, filledWidth_le_width 1 3 (by decide) (by decide)⟩

/-- The two mutexes of the Logger (lines 336-337). -/
inductive LockId where
  | flagMutex
  | logMutex
deriving DecidableEq

/-- A lock event: acquisition or release of one mutex. -/
inductive LockEv where
  | acq (l : LockId)
  | rel (l : LockId)
deriving DecidableEq

/-- Lock events of each per-severity emission function (lines 156-204):
the lock_guard acquires logMutex_ and releases it on return. -/
def lockTraceEmit : List LockEv := [.acq .logMutex, .rel .logMutex]

/-- Lock events of Logger::log (lines 132-154): the gate takes no lock;
a dispatched call performs the emission trace, and the OFF severity
dispatches to nothing. -/
def lockTraceLog (lvl thr : LogLevel) : List LockEv :=
  if lvl.rank ≤ thr.rank then
    match lvl with
    | .OFF => []
    | _ => lockTraceEmit
  else []

/-- Lock events of Logger::setLogLevel (lines 206-220) when a compiled
maximum severity is configured: the lock_guard acquires logMutex_, and
the rejection branch calls logERROR, whose own lock_guard acquires
logMutex_ again before the first guard is released. -/
def lockTraceSetLogLevel (rejected : Bool) : List LockEv :=
  [.acq .logMutex] ++ (if rejected then lockTraceEmit else []) ++ [.rel .logMutex]

/-- Lock events of Logger::addFlag (lines 254-264): the whole body runs
under flagMutex_; the duplicate-name branch calls logWARNING, which
acquires logMutex_ while flagMutex_ is held. -/
def lockTraceAddFlag (alreadyPresent : Bool) : List LockEv :=
  [.acq .flagMutex] ++ (if alreadyPresent then lockTraceEmit else []) ++
    [.rel .flagMutex]

/-- Lock events of Logger::releaseFlag (lines 266-285): the whole body
runs under flagMutex_ and both branches report through one emission
function, which acquires logMutex_ while flagMutex_ is held. -/
def lockTraceReleaseFlag : List LockEv :=
  [.acq .flagMutex] ++ lockTraceEmit ++ [.rel .flagMutex]

/-- Walk of a lock trace carrying the locks held: true when some event
acquires a lock already held by the same thread, which for the
non-recursive std::mutex is a self-deadlock (undefined behavior that
blocks forever in practice). -/
def selfDeadlockFrom : List LockId → List LockEv → Bool
  | _, [] => false
  | held, .acq l :: rest =>
    if l ∈ held then true else selfDeadlockFrom (l :: held) rest
  | held, .rel l :: rest => selfDeadlockFrom (held.erase l) rest

/-- Self-deadlock check starting with no lock held. -/
def selfDeadlock (tr : List LockEv) : Bool := selfDeadlockFrom [] tr

/-- Walk of a lock trace carrying the locks held: true when some event
acquires lock b at a point where lock a is held. -/
def acqWhileHoldingFrom (a b : LockId) : List LockId → List LockEv → Bool
  | _, [] => false
  | held, .acq l :: rest =>
    if l = b ∧ a ∈ held then true else acqWhileHoldingFrom a b (l :: held) rest
  | held, .rel l :: rest => acqWhileHoldingFrom a b (held.erase l) rest

/-- Acquisition-order check starting with no lock held. -/
def acqWhileHolding (a b : LockId) (tr : List LockEv) : Bool :=
  acqWhileHoldingFrom a b [] tr

/-- C2: evaluation of the rejection path of setLogLevel.  It acquires
the non-recursive logMutex_ a second time (inside logERROR) while
already holding it: a self-deadlock, so no error message is written and
the call never returns, instead of emitting exactly one error-level
message and returning as the claim states.  The commit path (rejected =
false) is deadlock-free and commits the change. -/
theorem setLogLevel_rejected_deadlocks :
    selfDeadlock (lockTraceSetLogLevel true) = true ∧
      selfDeadlock (lockTraceSetLogLevel false) = false := by
  decide

/-- C9 counterexample: releaseFlag acquires the emission lock for its
report while the flags lock is still held (its lock_guard spans the
whole body), refuting the claim that the flags mutex is released, or
never held, when the emission lock is acquired. -/
theorem flags_lock_order_counterexample :
    acqWhileHolding .flagMutex .logMutex lockTraceReleaseFlag = true := by
  decide

/-- C9 amended: addFlag (on the duplicate branch) and releaseFlag do
acquire the emission lock while still holding the flags mutex;
nevertheless no operation ever acquires the flags mutex while holding
the emission lock, so the two locks only ever nest in the single order
flags-then-emission and a deadlock cycle between the two locks cannot
arise. -/
theorem flags_lock_order_amended :
    (∀ present : Bool,
        acqWhileHolding .flagMutex .logMutex (lockTraceAddFlag present) = present) ∧
      acqWhileHolding .flagMutex .logMutex lockTraceReleaseFlag = true ∧
      (∀ present : Bool,
        acqWhileHolding .logMutex .flagMutex (lockTraceAddFlag present) = false) ∧
      acqWhileHolding .logMutex .flagMutex lockTraceReleaseFlag = false ∧
      (∀ rejected : Bool,
        acqWhileHolding .logMutex .flagMutex (lockTraceSetLogLevel rejected) = false) ∧
      (∀ lvl thr : LogLevel,
        acqWhileHolding .logMutex .flagMutex (lockTraceLog lvl thr) = false) ∧
      acqWhileHolding .logMutex .flagMutex lockTraceEmit = false := by
  decide

end TinyLogger
